import Mathlib

/-!
Shallow embedding of the datastore-mysql crate: the SQL statement AST
(lib.rs), the MySQL value writer, type writers, row reader and the store
facade operations (mysql.rs), together with theorems checking the
specification claims against these definitions.

Strings are modelled with the Lean String type; the source join and
format operations are modelled by explicit recursion and concatenation.
Operations whose misuse makes the source program abort (the
unreachable-state faults in Query.push and Query.push_condition, the
Option unwrap in MySqlReader.read, the Result unwrap in the get
operation) are modelled with Option or a dedicated Outcome constructor,
where none or panicked stands for the abort.
-/

namespace DatastoreMysql

/-- The single-quote character, codepoint 39. -/
def quoteChar : Char := Char.ofNat 39

/-- The single-quote character as a one-character string. -/
def squote : String := String.singleton quoteChar

/-- Specification-side join, written from the spec wording: exactly one
copy of the separator between consecutive elements, the empty string for
the empty list and no trailing separator. -/
def specSepJoin (sep : String) : List String → String
  | [] => ""
  | [x] => x
  | x :: y :: rest => x ++ sep ++ specSepJoin sep (y :: rest)

/-- Model of the join operation of the source standard library used in
lib.rs (first element, then separator plus element for every remaining
element, accumulated left to right). -/
def rustJoin (sep : String) : List String → String
  | [] => ""
  | x :: rest => rest.foldl (fun acc s => acc ++ sep ++ s) x

lemma foldl_sep_append (sep : String) :
    ∀ (rest : List String) (a b : String),
      rest.foldl (fun acc s => acc ++ sep ++ s) (a ++ b) =
        a ++ rest.foldl (fun acc s => acc ++ sep ++ s) b := by
  intro rest
  induction rest with
  | nil => intro a b; rfl
  | cons x xs ih =>
      intro a b
      simp only [List.foldl_cons]
      rw [String.append_assoc a b sep, String.append_assoc a (b ++ sep) x]
      exact ih a ((b ++ sep) ++ x)

lemma rustJoin_cons_cons (sep x y : String) (rest : List String) :
    rustJoin sep (x :: y :: rest) = x ++ sep ++ rustJoin sep (y :: rest) := by
  show (y :: rest).foldl (fun acc s => acc ++ sep ++ s) x = _
  simp only [List.foldl_cons, rustJoin]
  exact foldl_sep_append sep rest (x ++ sep) y

lemma rustJoin_eq_specSepJoin (sep : String) (l : List String) :
    rustJoin sep l = specSepJoin sep l := by
  induction l with
  | nil => rfl
  | cons x rest ih =>
      cases rest with
      | nil => rfl
      | cons y rest2 =>
          rw [rustJoin_cons_cons]
          rw [ih]
          rfl

lemma map_zip_space_eq_zipWith :
    ∀ (cs vs : List String),
      ((cs.zip vs).map fun p => p.1 ++ " " ++ p.2)
        = List.zipWith (fun c v => c ++ " " ++ v) cs vs := by
  intro cs
  induction cs with
  | nil => intro vs; cases vs <;> rfl
  | cons x xs ih =>
      intro vs
      cases vs with
      | nil => rfl
      | cons y ys =>
          simp only [List.zip_cons_cons, List.map_cons, List.zipWith_cons_cons]
          rw [ih]

/-! ## Statement AST, from src/src/lib.rs -/

/-- Comparator enum of lib.rs; equality is the only variant. -/
inductive Comparator where
  | eq
deriving DecidableEq

/-- Display for Comparator in lib.rs. -/
def Comparator.render : Comparator → String
  | .eq => "="

/-- Condition struct of lib.rs: column, literal value and comparator. -/
structure Condition where
  column : String
  value : String
  comparator : Comparator
deriving DecidableEq

/-- Display for Condition in lib.rs: column, space, comparator, space,
value. -/
def Condition.render (c : Condition) : String :=
  c.column ++ " " ++ c.comparator.render ++ " " ++ c.value

/-- Display for Conditions in lib.rs: the empty set renders as the empty
string; otherwise WHERE with the first condition, then one AND fragment
appended per remaining condition, left to right. -/
def Conditions.render : List Condition → String
  | [] => ""
  | c :: rest => rest.foldl (fun acc d => acc ++ " AND " ++ d.render) (" WHERE " ++ c.render)

/-- QueryKind enum of lib.rs. -/
inductive QueryKind where
  | create
  | delete
  | insert
  | select

/-- QueryInner enum of lib.rs: the kind-specific payload. -/
inductive QueryInner where
  | create (columns values : List String)
  | delete (conditions : List Condition)
  | insert (columns values : List String)
  | select (columns : List String) (conditions : List Condition)
deriving DecidableEq

/-- Query struct of lib.rs: a table name plus the kind-specific payload. -/
structure Query where
  table : String
  inner : QueryInner
deriving DecidableEq

/-- Query::new of lib.rs: an empty payload matching the kind. -/
def Query.new (table : String) (kind : QueryKind) : Query :=
  { table := table
    inner :=
      match kind with
      | .create => .create [] []
      | .delete => .delete []
      | .insert => .insert [] []
      | .select => .select [] [] }

/-- Query::push of lib.rs. The source reaches an unreachable-state fault
on the Delete variant; none models that abort. -/
def Query.push (q : Query) (key value : String) : Option Query :=
  match q.inner with
  | .create cs vs => some { q with inner := .create (cs ++ [key]) (vs ++ [value]) }
  | .delete _ => none
  | .insert cs vs => some { q with inner := .insert (cs ++ [key]) (vs ++ [value]) }
  | .select cs conds => some { q with inner := .select (cs ++ [key]) conds }

/-- Query::push_condition of lib.rs. The source reaches an
unreachable-state fault on the Create and Insert variants; none models
that abort. -/
def Query.push_condition (q : Query) (c : Condition) : Option Query :=
  match q.inner with
  | .create _ _ => none
  | .delete conds => some { q with inner := .delete (conds ++ [c]) }
  | .insert _ _ => none
  | .select cs conds => some { q with inner := .select cs (conds ++ [c]) }

/-- Display for Query in lib.rs: the four format strings, with the
column lists joined by commas via the standard join. -/
def Query.render (q : Query) : String :=
  match q.inner with
  | .create cs vs =>
      "CREATE TABLE IF NOT EXISTS " ++ q.table ++ " (" ++
        rustJoin "," ((cs.zip vs).map fun p => p.1 ++ " " ++ p.2) ++ ")"
  | .delete conds =>
      "DELETE FROM " ++ q.table ++ Conditions.render conds
  | .insert cs vs =>
      "INSERT INTO " ++ q.table ++ " (" ++ rustJoin "," cs ++ ") VALUES (" ++
        rustJoin "," vs ++ ")"
  | .select cs conds =>
      "SELECT " ++ rustJoin "," cs ++ " FROM " ++ q.table ++ Conditions.render conds

/-! ## Value writer literal text, from src/src/mysql.rs -/

namespace MySqlWriter

/-- Writer::write_bool of mysql.rs. -/
def write_bool (v : Bool) : String :=
  match v with
  | false => "FALSE"
  | true => "TRUE"

/-- Writer::write_i8 of mysql.rs: the decimal to-string rendering. -/
def write_i8 (v : Int) : String := toString v

/-- Writer::write_i16 of mysql.rs. -/
def write_i16 (v : Int) : String := toString v

/-- Writer::write_i32 of mysql.rs. -/
def write_i32 (v : Int) : String := toString v

/-- Writer::write_i64 of mysql.rs. -/
def write_i64 (v : Int) : String := toString v

/-- Writer::write_u8 of mysql.rs. -/
def write_u8 (v : Nat) : String := toString v

/-- Writer::write_u16 of mysql.rs. -/
def write_u16 (v : Nat) : String := toString v

/-- Writer::write_u32 of mysql.rs. -/
def write_u32 (v : Nat) : String := toString v

/-- Writer::write_u64 of mysql.rs. -/
def write_u64 (v : Nat) : String := toString v

/-- Writer::write_f32 of mysql.rs. A float value is represented here by
its decimal to-string rendering, which the source passes through
unchanged (the method only calls the standard to-string conversion). -/
def write_f32 (v : String) : String := v

/-- Writer::write_f64 of mysql.rs, modelled as write_f32. -/
def write_f64 (v : String) : String := v

/-- Model of the two-digit lowercase hex formatting directive used in
write_bytes: hex digits of the byte, left-padded with a zero to width
two. -/
def hex02 (b : Nat) : String :=
  let s := String.mk (Nat.toDigits 16 b)
  if s.length < 2 then "0" ++ s else s

/-- Writer::write_bytes of mysql.rs: the prefix 0x followed by one
two-digit lowercase hex pair per byte, in order. -/
def write_bytes (v : List Nat) : String :=
  "0x" ++ String.join (v.map hex02)

/-- Model of the char-pattern replace of the source standard library:
each occurrence of the pattern character is replaced by the replacement
character list. -/
def rustReplaceList (pat : Char) (repl : List Char) : List Char → List Char
  | [] => []
  | c :: rest => (if c = pat then repl else [c]) ++ rustReplaceList pat repl rest

/-- String form of rustReplaceList. -/
def rustReplace (s : String) (pat : Char) (repl : String) : String :=
  String.mk (rustReplaceList pat repl.data s.data)

/-- Writer::write_str of mysql.rs: the value wrapped in single quotes,
after replacing every single quote by a single quote. The replacement
string in the source is an escaped single quote, which denotes exactly
one quote character, so the replace is an identity. -/
def write_str (v : String) : String :=
  squote ++ rustReplace v quoteChar squote ++ squote

end MySqlWriter

/-- Specification-side string literal, written from the spec wording:
the value wrapped in single quotes with every embedded single quote
escaped by doubling. -/
def specEscapeStr (v : String) : String :=
  squote ++ MySqlWriter.rustReplace v quoteChar (squote ++ squote) ++ squote

/-- Specification-side lowercase hex digit, written from the spec
wording. -/
def specHexDigit (n : Nat) : Char :=
  if n < 10 then Char.ofNat (48 + n) else Char.ofNat (87 + n)

/-- Specification-side hex pair: two lowercase hex digits per byte, the
leading zero kept for bytes below sixteen. -/
def specHexPair (b : Nat) : String :=
  String.mk [specHexDigit (b / 16), specHexDigit (b % 16)]

/-! ## Type writers, from src/src/mysql.rs -/

/-- The closed set of primitive kinds the two TypeWriter implementations
dispatch over, one per write method. -/
inductive PrimitiveKind where
  | bool
  | i8
  | i16
  | i32
  | i64
  | u8
  | u16
  | u32
  | u64
  | f32
  | f64
  | bytes
  | str
deriving DecidableEq

/-- Column-type text of the TypeWriter implementation on MySqlWriter in
mysql.rs, collected over its thirteen write methods. -/
def MySqlWriter.typeText : PrimitiveKind → String
  | .bool => "BOOLEAN"
  | .i8 => "TINYINT"
  | .i16 => "SMALLINT"
  | .i32 => "INT"
  | .i64 => "BIGINT"
  | .u8 => "TINYINT UNSIGNED"
  | .u16 => "SMALLINT UNSIGNED"
  | .u32 => "INT UNSIGNED"
  | .u64 => "BIGINT UNSIGNED"
  | .f32 => "FLOAT"
  | .f64 => "DOUBLE"
  | .bytes => "BLOB"
  | .str => "TEXT"

/-- Column-type text of the TypeWriter implementation on MySqlTypeWriter
in mysql.rs, collected over its thirteen write methods. -/
def MySqlTypeWriter.typeText : PrimitiveKind → String
  | .bool => "BOOLEAN"
  | .i8 => "TINYINT"
  | .i16 => "SMALLINT"
  | .i32 => "INT"
  | .i64 => "BIGINT"
  | .u8 => "TINYINT UNSIGNED"
  | .u16 => "SMALLINT UNSIGNED"
  | .u32 => "INT UNSIGNED"
  | .u64 => "BIGINT UNSIGNED"
  | .f32 => "FLOAT"
  | .f64 => "DOUBLE"
  | .bytes => "BLOB"
  | .str => "TEXT"

/-- Specification-side column-type table, written from the spec wording:
signed integer names, with UNSIGNED appended for the unsigned widths. -/
def specTypeText : PrimitiveKind → String
  | .bool => "BOOLEAN"
  | .i8 => "TINYINT"
  | .i16 => "SMALLINT"
  | .i32 => "INT"
  | .i64 => "BIGINT"
  | .u8 => "TINYINT" ++ " UNSIGNED"
  | .u16 => "SMALLINT" ++ " UNSIGNED"
  | .u32 => "INT" ++ " UNSIGNED"
  | .u64 => "BIGINT" ++ " UNSIGNED"
  | .f32 => "FLOAT"
  | .f64 => "DOUBLE"
  | .bytes => "BLOB"
  | .str => "TEXT"

/-! ## Store facade operations, from src/src/mysql.rs -/

/-- Error type of the external driver: the distinguished no-row-found
variant, and all other faults. -/
inductive SqlxError where
  | rowNotFound
  | other (code : Nat)
deriving DecidableEq

/-- Result of a facade operation: a value, a returned error, or a
process abort. -/
inductive Outcome (ε α : Type) where
  | ok (val : α)
  | err (e : ε)
  | panicked
deriving DecidableEq

/-- The row loop of the get operation in mysql.rs. The fetched stream is
a list of driver results; a stream fault propagates as an error; a
decoding fault on a row aborts the process, because the source unwraps
the decode result. -/
def MySqlStore.get {ρ τ : Type} (decode : ρ → Except SqlxError τ) :
    List (Except SqlxError ρ) → Outcome SqlxError (List τ)
  | [] => .ok []
  | Except.error e :: _ => .err e
  | Except.ok row :: rest =>
      match decode row with
      | Except.error _ => .panicked
      | Except.ok t =>
          match MySqlStore.get decode rest with
          | .ok ts => .ok (t :: ts)
          | .err e => .err e
          | .panicked => .panicked

/-- The row loop of the get_all operation in mysql.rs. Identical to the
get loop except that a decoding fault on a row is returned as an error
to the caller. -/
def MySqlStore.get_all {ρ τ : Type} (decode : ρ → Except SqlxError τ) :
    List (Except SqlxError ρ) → Outcome SqlxError (List τ)
  | [] => .ok []
  | Except.error e :: _ => .err e
  | Except.ok row :: rest =>
      match decode row with
      | Except.error e => .err e
      | Except.ok t =>
          match MySqlStore.get_all decode rest with
          | .ok ts => .ok (t :: ts)
          | .err e => .err e
          | .panicked => .panicked

/-- The get_one operation of mysql.rs, after the query text has been
built: match on the single-row fetch result, mapping the distinguished
no-row-found fault to an absent result, any other fault to an error, and
decoding the fetched row otherwise. -/
def MySqlStore.get_one {ρ τ : Type} (decode : ρ → Except SqlxError τ)
    (fetched : Except SqlxError ρ) : Except SqlxError (Option τ) :=
  match fetched with
  | Except.ok row =>
      match decode row with
      | Except.error e => Except.error e
      | Except.ok t => Except.ok (some t)
  | Except.error SqlxError.rowNotFound => Except.ok none
  | Except.error e => Except.error e

/-! ## Row reader, from src/src/mysql.rs -/

/-- MySqlReader struct of mysql.rs: the fetched row and the current
column. The row is modelled as a map from column names to decode
results, standing for try_get on the row. -/
structure MySqlReader (ν : Type) where
  row : String → Except SqlxError ν
  column : Option String

/-- MySqlReader::new of mysql.rs: the current column starts unset. -/
def MySqlReader.new {ν : Type} (row : String → Except SqlxError ν) : MySqlReader ν :=
  { row := row, column := none }

/-- MySqlReader::read of mysql.rs: unwraps the current column, then
fetches that column from the row. The none result models the abort of
the unwrap when the column is unset. -/
def MySqlReader.read {ν : Type} (r : MySqlReader ν) : Option (Except SqlxError ν) :=
  match r.column with
  | none => none
  | some c => some (r.row c)

/-- Reader::read_bool of mysql.rs; it delegates to MySqlReader::read, as
do all thirteen primitive read methods. -/
def MySqlReader.read_bool {ν : Type} (r : MySqlReader ν) : Option (Except SqlxError ν) :=
  r.read

/-- Reader::read_string of mysql.rs; it delegates to MySqlReader::read. -/
def MySqlReader.read_string {ν : Type} (r : MySqlReader ν) : Option (Except SqlxError ν) :=
  r.read

/-- Reader::read_field of mysql.rs: sets the current column to the key,
then delegates to the primitive read of the target kind on the updated
reader; returns that result together with the updated reader state. -/
def MySqlReader.read_field {ν : Type} (r : MySqlReader ν) (key : String) :
    Option (Except SqlxError ν) × MySqlReader ν :=
  let r2 : MySqlReader ν := { r with column := some key }
  (r2.read, r2)

/-! ## Build sequences, for the columns-values balance invariant -/

/-- One push operation on a query under construction. -/
inductive BuildOp where
  | push (key value : String)
  | pushCondition (c : Condition)

/-- Applies one build operation; none models the abort of the source on
a kind-incompatible operation. -/
def applyOp (q : Query) : BuildOp → Option Query
  | .push k v => q.push k v
  | .pushCondition c => q.push_condition c

/-- Applies a sequence of build operations left to right, stopping at
the first abort. -/
def applyOps : Query → List BuildOp → Option Query
  | q, [] => some q
  | q, op :: rest =>
      match applyOp q op with
      | none => none
      | some q2 => applyOps q2 rest

/-- The columns list and the values list of a Create or Insert payload
have equal length; trivial for the other kinds. -/
def Query.balanced (q : Query) : Prop :=
  match q.inner with
  | .create cs vs => cs.length = vs.length
  | .insert cs vs => cs.length = vs.length
  | _ => True

/-! ## Helper lemmas -/

lemma rustReplaceList_self (pat : Char) :
    ∀ l : List Char, MySqlWriter.rustReplaceList pat [pat] l = l := by
  intro l
  induction l with
  | nil => rfl
  | cons c rest ih =>
      show (if c = pat then [pat] else [c]) ++ MySqlWriter.rustReplaceList pat [pat] rest = c :: rest
      rw [ih]
      by_cases hc : c = pat
      · subst hc; simp
      · simp [hc]

lemma write_str_noop (v : String) :
    MySqlWriter.write_str v = squote ++ v ++ squote := by
  show squote ++ MySqlWriter.rustReplace v quoteChar squote ++ squote = _
  have hv : MySqlWriter.rustReplace v quoteChar squote = v := by
    show String.mk (MySqlWriter.rustReplaceList quoteChar [quoteChar] v.data) = v
    rw [rustReplaceList_self quoteChar v.data]
  rw [hv]

/-- The input from the spec example: a name containing a single quote. -/
def obrien : String := "O" ++ squote ++ "Brien"

lemma Condition.render_eq_spec (c : Condition) :
    c.render = c.column ++ " = " ++ c.value := by
  obtain ⟨col, v, cmp⟩ := c
  cases cmp
  show col ++ " " ++ "=" ++ " " ++ v = col ++ " = " ++ v
  rw [String.append_assoc col " " "=", String.append_assoc col (" " ++ "=") " "]
  rfl

lemma conditions_render_cons (c : Condition) (cs : List Condition) :
    Conditions.render (c :: cs) =
      " WHERE " ++ specSepJoin " AND " ((c :: cs).map Condition.render) := by
  show cs.foldl (fun acc d => acc ++ " AND " ++ d.render) (" WHERE " ++ c.render) = _
  rw [← List.foldl_map Condition.render (fun acc s => acc ++ " AND " ++ s) cs (" WHERE " ++ c.render)]
  rw [foldl_sep_append " AND " (cs.map Condition.render) " WHERE " c.render]
  rw [← rustJoin_eq_specSepJoin]
  rfl

lemma applyOp_balanced {q q2 : Query} {op : BuildOp} (hb : q.balanced)
    (h : applyOp q op = some q2) : q2.balanced := by
  obtain ⟨table, inner⟩ := q
  cases op with
  | push k v =>
      cases inner with
      | create cs vs =>
          injection h with h
          subst h
          have hb2 : cs.length = vs.length := hb
          show (cs ++ [k]).length = (vs ++ [v]).length
          simp only [List.length_append, List.length_cons, List.length_nil]
          omega
      | delete conds => exact Option.noConfusion h
      | insert cs vs =>
          injection h with h
          subst h
          have hb2 : cs.length = vs.length := hb
          show (cs ++ [k]).length = (vs ++ [v]).length
          simp only [List.length_append, List.length_cons, List.length_nil]
          omega
      | select cs conds =>
          injection h with h
          subst h
          exact trivial
  | pushCondition cond =>
      cases inner with
      | create cs vs => exact Option.noConfusion h
      | delete conds =>
          injection h with h
          subst h
          exact trivial
      | insert cs vs => exact Option.noConfusion h
      | select cs conds =>
          injection h with h
          subst h
          exact trivial

lemma applyOps_balanced :
    ∀ (ops : List BuildOp) (q q2 : Query), q.balanced → applyOps q ops = some q2 → q2.balanced := by
  intro ops
  induction ops with
  | nil =>
      intro q q2 hb h
      injection h with h
      subst h
      exact hb
  | cons op rest ih =>
      intro q q2 hb h
      simp only [applyOps] at h
      cases hop : applyOp q op with
      | none => rw [hop] at h; exact Option.noConfusion h
      | some q3 => rw [hop] at h; exact ih q3 q2 (applyOp_balanced hb hop) h

lemma new_balanced (table : String) (kind : QueryKind) : (Query.new table kind).balanced := by
  cases kind <;> simp [Query.new, Query.balanced]

set_option maxHeartbeats 1000000 in
set_option maxRecDepth 100000 in
lemma hex02_eq_specHexPair : ∀ b : Fin 256, MySqlWriter.hex02 b.val = specHexPair b.val := by
  decide

/-! ## Claim theorems -/

/-- Claim C1: the claim states that write_str produces the value wrapped
in single quotes with every embedded single quote escaped by doubling.
The code diverges at the concrete input: the replace in the source maps
the quote character to itself, so write_str wraps the input unescaped
and its output differs from the doubled-escape literal the claim and the
spec demand. -/
theorem write_str_unescaped_on_quote :
    MySqlWriter.write_str obrien = squote ++ obrien ++ squote
    ∧ specEscapeStr obrien = squote ++ ("O" ++ squote ++ squote ++ "Brien") ++ squote
    ∧ MySqlWriter.write_str obrien ≠ specEscapeStr obrien :=
  ⟨write_str_noop obrien, by decide, by decide⟩

/-- Claim C2: the claim states that in both get and get_all a decoding
fault on any fetched row aborts the call and surfaces as an error
result. On a two-row stream whose second row fails to decode, get_all
returns the error with no partial results, but get aborts the process
instead of returning an error, because the source unwraps the decode
result. -/
theorem get_panics_get_all_errors_on_decode_fault :
    MySqlStore.get
        (fun n : Nat => if n = 0 then Except.ok n else Except.error (SqlxError.other 7))
        [Except.ok 0, Except.ok 1] = Outcome.panicked
    ∧ MySqlStore.get_all
        (fun n : Nat => if n = 0 then Except.ok n else Except.error (SqlxError.other 7))
        [Except.ok 0, Except.ok 1] = Outcome.err (SqlxError.other 7) :=
  ⟨rfl, rfl⟩

/-- Claim C3: push succeeds exactly on Create, Insert and Select,
appending the column and value to the two lists in call order for
Create and Insert and appending only the column for Select, and aborts
on Delete; push_condition succeeds exactly on Delete and Select,
appending the condition in call order, and aborts on Create and
Insert. -/
theorem push_and_push_condition_domains (table key value : String)
    (cs vs : List String) (conds : List Condition) (c : Condition) :
    Query.push ⟨table, .create cs vs⟩ key value
        = some ⟨table, .create (cs ++ [key]) (vs ++ [value])⟩
    ∧ Query.push ⟨table, .insert cs vs⟩ key value
        = some ⟨table, .insert (cs ++ [key]) (vs ++ [value])⟩
    ∧ Query.push ⟨table, .select cs conds⟩ key value
        = some ⟨table, .select (cs ++ [key]) conds⟩
    ∧ Query.push ⟨table, .delete conds⟩ key value = none
    ∧ Query.push_condition ⟨table, .delete conds⟩ c
        = some ⟨table, .delete (conds ++ [c])⟩
    ∧ Query.push_condition ⟨table, .select cs conds⟩ c
        = some ⟨table, .select cs (conds ++ [c])⟩
    ∧ Query.push_condition ⟨table, .create cs vs⟩ c = none
    ∧ Query.push_condition ⟨table, .insert cs vs⟩ c = none :=
  ⟨rfl, rfl, rfl, rfl, rfl, rfl, rfl, rfl⟩

/-- Claim C4: render produces exactly the four statement formats, with
the fragments comma-joined byte for byte, no whitespace after commas, no
trailing separator, in list order, and the condition suffix appended for
Select and Delete. -/
theorem query_render_formats (table : String) (cs vs cols vals : List String)
    (conds : List Condition) :
    Query.render ⟨table, .create cs vs⟩
        = "CREATE TABLE IF NOT EXISTS " ++ table ++ " (" ++
            specSepJoin "," (List.zipWith (fun c v => c ++ " " ++ v) cs vs) ++ ")"
    ∧ Query.render ⟨table, .insert cols vals⟩
        = "INSERT INTO " ++ table ++ " (" ++ specSepJoin "," cols ++ ") VALUES (" ++
            specSepJoin "," vals ++ ")"
    ∧ Query.render ⟨table, .select cols conds⟩
        = "SELECT " ++ specSepJoin "," cols ++ " FROM " ++ table ++ Conditions.render conds
    ∧ Query.render ⟨table, .delete conds⟩
        = "DELETE FROM " ++ table ++ Conditions.render conds := by
  refine ⟨?_, ?_, ?_, rfl⟩
  · show "CREATE TABLE IF NOT EXISTS " ++ table ++ " (" ++
        rustJoin "," ((cs.zip vs).map fun p => p.1 ++ " " ++ p.2) ++ ")" = _
    rw [map_zip_space_eq_zipWith cs vs, rustJoin_eq_specSepJoin]
  · show "INSERT INTO " ++ table ++ " (" ++ rustJoin "," cols ++ ") VALUES (" ++
        rustJoin "," vals ++ ")" = _
    rw [rustJoin_eq_specSepJoin, rustJoin_eq_specSepJoin]
  · show "SELECT " ++ rustJoin "," cols ++ " FROM " ++ table ++ Conditions.render conds = _
    rw [rustJoin_eq_specSepJoin]

/-- Claim C5: an empty condition set renders as the empty string; a
nonempty set renders as WHERE followed by the conditions in insertion
order with exactly one AND separator between consecutive conditions,
each condition rendered as column, equals sign, literal. -/
theorem conditions_render_where_and_join (c : Condition) (cs : List Condition) :
    Conditions.render ([] : List Condition) = ""
    ∧ Conditions.render (c :: cs)
        = " WHERE " ++
            specSepJoin " AND " ((c :: cs).map fun d => d.column ++ " = " ++ d.value) := by
  refine ⟨rfl, ?_⟩
  rw [conditions_render_cons]
  have hm : (c :: cs).map Condition.render
      = (c :: cs).map fun d => d.column ++ " = " ++ d.value :=
    List.map_congr_left fun d _ => Condition.render_eq_spec d
  rw [hm]

/-- Claim C6: get_one maps the distinguished no-row-found driver fault
to an absent result, propagates every other driver fault unchanged as an
error, and returns the decoded record present when a row is found. -/
theorem get_one_semantics {ρ τ : Type} (decode : ρ → Except SqlxError τ)
    (row : ρ) (t : τ) (e : SqlxError) :
    MySqlStore.get_one decode (Except.error SqlxError.rowNotFound) = Except.ok none
    ∧ (e ≠ SqlxError.rowNotFound →
        MySqlStore.get_one decode (Except.error e) = Except.error e)
    ∧ (decode row = Except.ok t →
        MySqlStore.get_one decode (Except.ok row) = Except.ok (some t)) := by
  refine ⟨rfl, ?_, ?_⟩
  · intro he
    cases e with
    | rowNotFound => exact absurd rfl he
    | other n => rfl
  · intro hd
    simp only [MySqlStore.get_one, hd]

theorem get_one_semantics_witness :
    MySqlStore.get_one (fun _ : Unit => (Except.ok 5 : Except SqlxError Nat))
        (Except.error (SqlxError.other 1)) = Except.error (SqlxError.other 1)
    ∧ MySqlStore.get_one (fun _ : Unit => (Except.ok 5 : Except SqlxError Nat))
        (Except.ok ()) = Except.ok (some 5) :=
  ⟨(get_one_semantics (fun _ : Unit => (Except.ok 5 : Except SqlxError Nat)) () 5
      (SqlxError.other 1)).2.1 (by decide),
   (get_one_semantics (fun _ : Unit => (Except.ok 5 : Except SqlxError Nat)) () 5
      (SqlxError.other 1)).2.2 rfl⟩

/-- Claim C7: both TypeWriter implementations emit exactly the claimed
column-type text for every primitive kind, with the unsigned integer
widths appending UNSIGNED to the signed names. -/
theorem type_writers_column_types (k : PrimitiveKind) :
    MySqlWriter.typeText k = specTypeText k
    ∧ MySqlTypeWriter.typeText k = specTypeText k := by
  cases k <;> exact ⟨rfl, rfl⟩

/-- Claim C8: the value writer renders booleans as TRUE and FALSE, every
integer value in its decimal to-string form, every float value in its
decimal to-string form (here the float is represented by that
rendering, which the writer passes through unchanged), and a byte
sequence as 0x followed by two lowercase hex digits per byte in order,
keeping the leading zero for bytes below sixteen. -/
theorem value_writer_literals (n : Int) (m : Nat) (fr : String) (bs : List Nat) :
    ((∀ b ∈ bs, b < 256) →
        MySqlWriter.write_bytes bs = "0x" ++ String.join (bs.map specHexPair))
    ∧ MySqlWriter.write_bytes [10, 255] = "0x0aff"
    ∧ MySqlWriter.write_bool true = "TRUE"
    ∧ MySqlWriter.write_bool false = "FALSE"
    ∧ MySqlWriter.write_i8 n = toString n
    ∧ MySqlWriter.write_i16 n = toString n
    ∧ MySqlWriter.write_i32 n = toString n
    ∧ MySqlWriter.write_i64 n = toString n
    ∧ MySqlWriter.write_u8 m = toString m
    ∧ MySqlWriter.write_u16 m = toString m
    ∧ MySqlWriter.write_u32 m = toString m
    ∧ MySqlWriter.write_u64 m = toString m
    ∧ MySqlWriter.write_f32 fr = fr
    ∧ MySqlWriter.write_f64 fr = fr := by
  refine ⟨?_, by decide, rfl, rfl, rfl, rfl, rfl, rfl, rfl, rfl, rfl, rfl, rfl, rfl⟩
  intro h
  show "0x" ++ String.join (bs.map MySqlWriter.hex02) = _
  have hm : bs.map MySqlWriter.hex02 = bs.map specHexPair :=
    List.map_congr_left fun b hb => hex02_eq_specHexPair ⟨b, h b hb⟩
  rw [hm]

theorem value_writer_literals_witness :
    MySqlWriter.write_bytes [10, 255] = "0x" ++ String.join ([10, 255].map specHexPair) :=
  (value_writer_literals 0 0 "" [10, 255]).1 (by decide)

/-- Claim C9: starting from Query.new, after any sequence of
non-aborting push and push_condition operations, a Create or Insert
payload has columns and values lists of equal length. -/
theorem create_insert_columns_values_balanced (table : String) (kind : QueryKind)
    (ops : List BuildOp) (q : Query)
    (h : applyOps (Query.new table kind) ops = some q) : q.balanced :=
  applyOps_balanced ops (Query.new table kind) q (new_balanced table kind) h

theorem create_insert_columns_values_balanced_witness :
    Query.balanced ⟨"test", QueryInner.insert ["id"] ["3"]⟩ :=
  create_insert_columns_values_balanced "test" QueryKind.insert
    [BuildOp.push "id" "3"] ⟨"test", QueryInner.insert ["id"] ["3"]⟩ rfl

/-- Claim C10: on a freshly constructed reader any primitive read aborts
because the current column is unset and unwrapped; after read_field with
a key, the current column equals that key, the delegated primitive read
targets exactly that column, and the unwrap cannot abort. -/
theorem reader_read_requires_field_key (ν : Type) (row : String → Except SqlxError ν)
    (r : MySqlReader ν) (key : String) :
    (MySqlReader.new row).read_bool = none
    ∧ (MySqlReader.new row).read_string = none
    ∧ (MySqlReader.new row).read = none
    ∧ (r.read_field key).1 = some (r.row key)
    ∧ (r.read_field key).2.column = some key :=
  ⟨rfl, rfl, rfl, rfl, rfl⟩

end DatastoreMysql
